import Mathlib

/-!
# Verification of the websurfer-mcp core against its specification

Shallow embedding of the URL validator (`src/url_validator.py`), the
fetch-and-extract pipeline (`src/text_extractor.py`) and the configuration
(`src/config.py`) of the websurfer-mcp repository, together with theorems
settling the specification claims about them.

Python strings are modelled as Lean `String`; byte strings are modelled as
`String` (one `Char` per byte) since only lengths and textual content matter
to the properties proved here.  All string manipulation is implemented over
`List Char` with structural recursion so that concrete instances reduce in
the kernel.
-/

set_option autoImplicit false
set_option maxRecDepth 8000

namespace Websurfer

/-! ## Character-list string primitives -/

/-- Prefix test on character lists. -/
def isPrefixL : List Char → List Char → Bool
  | [], _ => true
  | _ :: _, [] => false
  | a :: as, b :: bs => a == b && isPrefixL as bs

/-- Substring (contiguous) test on character lists: does `p` occur in `l`? -/
def hasSubL (p : List Char) : List Char → Bool
  | [] => isPrefixL p []
  | l@(_ :: t) => isPrefixL p l || hasSubL p t

/-- `s.startswith(pat)` (Python) / prefix test on strings. -/
def strStartsWith (s pat : String) : Bool := isPrefixL pat.toList s.toList

/-- `s.endswith(pat)` (Python) / suffix test on strings. -/
def strEndsWith (s pat : String) : Bool :=
  isPrefixL pat.toList.reverse s.toList.reverse

/-- `pat in s` (Python): contiguous-substring containment. -/
def strContainsSub (s pat : String) : Bool := hasSubL pat.toList s.toList

/-- ASCII lower-casing of one character (as Python `str.lower` on ASCII). -/
def lowerChar (c : Char) : Char :=
  if 'A' ≤ c && c ≤ 'Z' then Char.ofNat (c.toNat + 32) else c

/-- Python `str.lower()` restricted to ASCII case mapping. -/
def strToLower (s : String) : String := String.mk (s.toList.map lowerChar)

/-- The whitespace characters stripped by Python `str.strip()`. -/
def pyIsSpace (c : Char) : Bool :=
  c == ' ' || c == '\t' || c == '\n' || c == '\r' || c == '\x0b' || c == '\x0c'

/-- Remove trailing characters satisfying `q`. -/
def dropWhileEnd (q : Char → Bool) : List Char → List Char
  | [] => []
  | c :: rest =>
    let r := dropWhileEnd q rest
    if r.isEmpty && q c then [] else c :: r

/-- Python `str.strip()`: remove leading and trailing whitespace. -/
def pyStrip (s : String) : String :=
  String.mk (dropWhileEnd pyIsSpace (s.toList.dropWhile pyIsSpace))

/-- Split a character list at every occurrence of the separator `sep`. -/
def splitOnCharAux (sep : Char) : List Char → List Char → List (List Char)
  | [], acc => [acc.reverse]
  | c :: rest, acc =>
    if c == sep then acc.reverse :: splitOnCharAux sep rest []
    else splitOnCharAux sep rest (c :: acc)

/-- Python `s.split(sep)` for a one-character separator. -/
def splitOnChar (sep : Char) (l : List Char) : List (List Char) :=
  splitOnCharAux sep l []

/-! ## Model of `urllib.parse.urlparse` (Python standard library)

The repository calls `urlparse` on its normalized URL and reads `.scheme`
and `.hostname`.  This is a model of those two accessors (external to the
repository), restricted to the URL shapes the validator handles: scheme
recognition, the `//authority` section delimited by `/?#`, userinfo
stripping at the last `@`, bracketed IPv6 hosts, port stripping at the
first `:` and lower-casing of the hostname.  `urlparse` is modelled as
total; its rarely reachable exception branch in `validate` is therefore
not exercised by the model. -/

/-- Is `c` legal inside a URL scheme after the first character? -/
def schemeChar (c : Char) : Bool :=
  c.isAlphanum || c == '+' || c == '-' || c == '.'

/-- Split `scheme:rest` as `urlparse` does: the scheme must be nonempty,
start with a letter and consist of scheme characters; otherwise the whole
string is the remainder and the scheme is empty. -/
def schemeSplit (l : List Char) : List Char × List Char :=
  match splitAt' l with
  | none => ([], l)
  | some (sch, rest) =>
    match sch with
    | [] => ([], l)
    | c :: cs =>
      if c.isAlpha && cs.all schemeChar then (sch.map lowerChar, rest)
      else ([], l)
where
  /-- Split at the first `:` if any. -/
  splitAt' : List Char → Option (List Char × List Char)
    | [] => none
    | c :: rest =>
      if c == ':' then some ([], rest)
      else match splitAt' rest with
        | some (a, b) => some (c :: a, b)
        | none => none

/-- The `.scheme` field of `urlparse` (lower-cased). -/
def urlScheme (u : String) : String := String.mk (schemeSplit u.toList).1

/-- The network-location part: after `//`, up to the first `/`, `?` or `#`.
Empty when the remainder does not start with `//`. -/
def urlNetloc (u : String) : List Char :=
  let rest := (schemeSplit u.toList).2
  match rest with
  | '/' :: '/' :: tail => tail.takeWhile (fun c => !(c == '/' || c == '?' || c == '#'))
  | _ => []

/-- The `.hostname` field of `urlparse`: netloc with userinfo (before the
last `@`) removed, IPv6 brackets stripped, the port removed, lower-cased;
`none` when empty. -/
def urlHostname (u : String) : Option String :=
  let netloc := urlNetloc u
  let hostinfo := (netloc.reverse.takeWhile (fun c => !(c == '@'))).reverse
  let host :=
    match hostinfo with
    | '[' :: tail => tail.takeWhile (fun c => !(c == ']'))
    | _ => hostinfo.takeWhile (fun c => !(c == ':'))
  match host with
  | [] => none
  | h => some (String.mk (h.map lowerChar))

/-! ## Model of the third-party `validators.url` check

The repository calls `validators.url(normalized_url)` as a syntactic
well-formedness gate.  This models that third-party library (external to
the repository) as: recognised scheme, nonempty hostname made of
alphanumerics, dots and hyphens (or a bracketed group for IPv6 literals).
It is deliberately permissive where no claim depends on a rejection. -/

def validatorsUrl (u : String) : Bool :=
  let scheme := urlScheme u
  (scheme == "http" || scheme == "https" || scheme == "ftp" || scheme == "ftps") &&
  match urlHostname u with
  | some h => !h.isEmpty && h.toList.all (fun c => c.isAlphanum || c == '.' || c == '-' || c == ':')
  | none => false

/-! ## Model of the Python `ipaddress` module (standard library)

`validate` calls `ipaddress.ip_address(hostname)` and tests the address
category predicates.  IPv4 parsing follows CPython (four dot-separated
decimal components, at most three digits, no leading zeros, value ≤ 255).
IPv6 parsing covers hex groups with at most one `::` compression (the
dotted-quad-embedded form is not modelled).  The category predicates
follow the CPython range tables; for IPv6 the principal ranges are
modelled. -/

inductive IpAddr where
  | v4 (a b c d : Nat)
  | v6 (val : Nat)
deriving DecidableEq, Repr

/-- Parse one decimal IPv4 component per CPython rules. -/
def parseOctet (l : List Char) : Option Nat :=
  match l with
  | [] => none
  | _ =>
    if l.length > 3 then none
    else if !(l.all Char.isDigit) then none
    else if l.length > 1 && l.headD '0' == '0' then none
    else
      let v := l.foldl (fun acc c => acc * 10 + (c.toNat - '0'.toNat)) 0
      if v ≤ 255 then some v else none

/-- Parse a dotted-quad IPv4 literal. -/
def parseIPv4 (s : String) : Option IpAddr :=
  match (splitOnChar '.' s.toList).map parseOctet with
  | [some a, some b, some c, some d] => some (.v4 a b c d)
  | _ => none

/-- Hex digit value for lower-case hex (input is lower-cased beforehand). -/
def hexVal (c : Char) : Option Nat :=
  if c.isDigit then some (c.toNat - '0'.toNat)
  else if 'a' ≤ c && c ≤ 'f' then some (c.toNat - 'a'.toNat + 10)
  else none

/-- Parse one IPv6 hex group (1–4 hex digits). -/
def parseHex4 (l : List Char) : Option Nat :=
  match l with
  | [] => none
  | _ =>
    if l.length > 4 then none
    else l.foldl (fun acc c => match acc, hexVal c with
      | some a, some v => some (a * 16 + v)
      | _, _ => none) (some 0)

/-- Find the first `::` and split around it. -/
def findSplit2 : List Char → Option (List Char × List Char)
  | [] => none
  | [_] => none
  | a :: b :: rest =>
    if a == ':' && b == ':' then some ([], rest)
    else match findSplit2 (b :: rest) with
      | some (l, r) => some (a :: l, r)
      | none => none

/-- Parse all groups of a (sub)list split on single colons. -/
def parseGroups (l : List Char) : Option (List Nat) :=
  (splitOnChar ':' l).foldr (fun g acc =>
    match parseHex4 g, acc with
    | some v, some vs => some (v :: vs)
    | _, _ => none) (some [])

/-- Combine IPv6 groups into the 128-bit value. -/
def groupsVal (gs : List Nat) : Nat := gs.foldl (fun acc g => acc * 65536 + g) 0

/-- Parse an IPv6 literal (hex-group forms, one optional `::`). -/
def parseIPv6 (s : String) : Option IpAddr :=
  let l := s.toList
  match findSplit2 l with
  | none =>
    match parseGroups l with
    | some gs => if gs.length == 8 then some (.v6 (groupsVal gs)) else none
    | none => none
  | some (left, right) =>
    if (findSplit2 right).isSome then none
    else
      let lgs := if left.isEmpty then some [] else parseGroups left
      let rgs := if right.isEmpty then some [] else parseGroups right
      match lgs, rgs with
      | some ls, some rs =>
        if ls.length + rs.length ≤ 7 then
          some (.v6 (groupsVal (ls ++ List.replicate (8 - ls.length - rs.length) 0 ++ rs)))
        else none
      | _, _ => none

/-- Model of `ipaddress.ip_address`: try IPv4, then IPv6. -/
def ipAddress (s : String) : Option IpAddr :=
  match parseIPv4 s with
  | some ip => some ip
  | none => if s.toList.contains ':' then parseIPv6 s else none

/-- CPython `is_loopback`. -/
def ipIsLoopback : IpAddr → Bool
  | .v4 a _ _ _ => a == 127
  | .v6 v => v == 1

/-- CPython `is_unspecified`. -/
def ipIsUnspecified : IpAddr → Bool
  | .v4 a b c d => a == 0 && b == 0 && c == 0 && d == 0
  | .v6 v => v == 0

/-- CPython `is_link_local`. -/
def ipIsLinkLocal : IpAddr → Bool
  | .v4 a b _ _ => a == 169 && b == 254
  | .v6 v => v / 2 ^ 118 == 0x3fa

/-- CPython `is_multicast`. -/
def ipIsMulticast : IpAddr → Bool
  | .v4 a _ _ _ => 224 ≤ a && a ≤ 239
  | .v6 v => v / 2 ^ 120 == 0xff

/-- CPython `is_reserved` (IPv4: 240.0.0.0/4; IPv6: principal reserved
blocks are subsumed here by the other predicates for our purposes). -/
def ipIsReserved : IpAddr → Bool
  | .v4 a _ _ _ => a ≥ 240
  | .v6 _ => false

/-- CPython `is_private` (IPv4 private-network table; IPv6 principal
ranges: loopback, unspecified, v4-mapped, fc00::/7, fe80::/10,
2001:db8::/32). -/
def ipIsPrivate : IpAddr → Bool
  | .v4 a b c d =>
    a == 0 ||
    a == 10 ||
    a == 127 ||
    (a == 169 && b == 254) ||
    (a == 172 && 16 ≤ b && b ≤ 31) ||
    (a == 192 && b == 0 && c == 0 && d ≤ 7) ||
    (a == 192 && b == 0 && c == 0 && (d == 170 || d == 171)) ||
    (a == 192 && b == 0 && c == 2) ||
    (a == 192 && b == 168) ||
    (a == 198 && (b == 18 || b == 19)) ||
    (a == 198 && b == 51 && c == 100) ||
    (a == 203 && b == 0 && c == 113) ||
    a ≥ 240 ||
    (a == 255 && b == 255 && c == 255 && d == 255)
  | .v6 v =>
    v == 1 || v == 0 || v / 2 ^ 32 == 0xffff ||
    v / 2 ^ 121 == 0x7e || v / 2 ^ 118 == 0x3fa ||
    v / 2 ^ 96 == 0x20010db8

/-! ## URL validator (`src/url_validator.py`) -/

/-- `ValidationResult` (src/url_validator.py, lines 12-17). -/
structure ValidationResult where
  is_valid : Bool
  error_message : Option String := none
  normalized_url : Option String := none
deriving DecidableEq, Repr

/-- A Python runtime value, as far as the dynamic checks of `validate`
observe one (`if not url` and `isinstance(url, str)`). -/
inductive PyValue where
  | str (s : String)
  | int (n : Int)
  | bool (b : Bool)
  | pynone
deriving DecidableEq, Repr

/-- Python truthiness of a `PyValue`. -/
def truthy : PyValue → Bool
  | .str s => !s.isEmpty
  | .int n => n != 0
  | .bool b => b
  | .pynone => false

/-- `isinstance(v, str)`. -/
def PyValue.isStr : PyValue → Bool
  | .str _ => true
  | _ => false

/-- `URLValidator.blocked_schemes` (src/url_validator.py, line 24). -/
def blocked_schemes : List String := ["file", "ftp", "sftp", "data", "javascript"]

/-- `URLValidator.blocked_domains` (src/url_validator.py, lines 27-30). -/
def blocked_domains : List String := ["localhost", "local"]

/-- `URLValidator._normalize_url` (src/url_validator.py, lines 137-157). -/
def normalizeUrl (url : String) : String :=
  let url := pyStrip url
  if strStartsWith url "http://" || strStartsWith url "https://" then url
  else if strContainsSub url "://" then url
  else "https://" ++ url

/-- The final URL-length check and the success return of `validate`
(src/url_validator.py, lines 113-123). -/
def finishValidation (normalized : String) : ValidationResult :=
  if normalized.length > 2048 then
    ⟨false, some "URL is too long (max 2048 characters)", none⟩
  else ⟨true, none, some normalized⟩

/-- `URLValidator._is_blocked_ip` (src/url_validator.py, lines 125-134). -/
def isBlockedIp (ip : IpAddr) : Bool :=
  ipIsLoopback ip || ipIsPrivate ip || ipIsLinkLocal ip || ipIsMulticast ip ||
  ipIsReserved ip || ipIsUnspecified ip

/-- `URLValidator.validate` (src/url_validator.py, lines 32-123).
Note the source checks `if not url:` (falsiness) before
`isinstance(url, str)`. -/
def validate (url : PyValue) : ValidationResult :=
  if !truthy url then ⟨false, some "URL cannot be empty", none⟩
  else
    match url with
    | .str url =>
      let normalized := normalizeUrl url
      if !validatorsUrl normalized then ⟨false, some "Invalid URL format", none⟩
      else
        let scheme := strToLower (urlScheme normalized)
        if !(scheme == "http" || scheme == "https") then
          if blocked_schemes.contains scheme then
            ⟨false, some ("Blocked scheme: " ++ scheme), none⟩
          else
            ⟨false, some ("Unsupported scheme: " ++ scheme ++
              ". Only HTTP and HTTPS are allowed."), none⟩
        else
          match urlHostname normalized with
          | some hostname =>
            let hostnameLower := strToLower hostname
            if blocked_domains.contains hostnameLower ||
                strEndsWith hostnameLower ".local" then
              ⟨false, some ("Access to " ++ hostname ++ " is not allowed"), none⟩
            else
              match ipAddress hostnameLower with
              | some ip =>
                if isBlockedIp ip then
                  ⟨false, some "Access to private or reserved IP ranges is not allowed", none⟩
                else finishValidation normalized
              | none => finishValidation normalized
          | none => finishValidation normalized
    | _ => ⟨false, some "URL must be a string", none⟩

/-! ## Configuration (`src/config.py`) -/

/-- `Config` (src/config.py, lines 9-36), with the source's defaults. -/
structure Config where
  default_timeout : Int := 10
  max_timeout : Int := 60
  user_agent : String := "MCP-URL-Search-Server/1.0.0"
  max_content_length : Nat := 10 * 1024 * 1024
  supported_content_types : List String :=
    ["text/html", "text/plain", "application/xhtml+xml", "text/xml", "application/xml"]
  rate_limit_requests : Nat := 100
  rate_limit_window : Int := 60
deriving Repr

/-- The validation part of `Config.__post_init__` (src/config.py,
lines 47-52); the environment-variable overrides (lines 42-45) are modelled
as absent.  First `default_timeout` is capped at `max_timeout`, then raised
to at least 1. -/
def postInitClamp (c : Config) : Config :=
  let d := if c.default_timeout > c.max_timeout then c.max_timeout else c.default_timeout
  let d := if d < 1 then 1 else d
  { c with default_timeout := d }

/-! ## Text extractor (`src/text_extractor.py`)

The network and the HTML libraries are the pipeline's environment:
* an HTTP attempt is a `FetchOutcome` — either one of the exception classes
  the source catches (lines 193-217) or a delivered `HttpResponse`;
* body bytes arrive as the chunk list that `response.content.iter_any()`
  yields, each chunk modelled as a `String` of one `Char` per byte;
* `resp.readError` models an exception raised by the chunk iterator after
  the listed chunks (caught at lines 165-170), `resp.decodeError` an
  exception from `bytes.decode` (caught at lines 157-164); the successful
  decode with `errors='replace'` is modelled as the identity on the
  accumulated chunk text;
* the trafilatura/BeautifulSoup machinery used for non-plain content inside
  `_extract_text_content` is an oracle parameter `htmlExtract`. -/

/-- `ExtractionResult` (src/text_extractor.py, lines 17-26). -/
structure ExtractionResult where
  success : Bool
  text_content : Option String := none
  title : Option String := none
  content_type : Option String := none
  status_code : Option Nat := none
  error_message : Option String := none
  url : Option String := none
deriving DecidableEq, Repr

/-- A delivered HTTP response, as the pipeline observes it. -/
structure HttpResponse where
  status : Nat
  contentTypeHeader : Option String := none
  chunks : List String := []
  readError : Option String := none
  decodeError : Option String := none
deriving Repr

/-- The outcome of `session.get`: a delivered response or one of the
exception classes caught by `extract_text`. -/
inductive FetchOutcome where
  | timedOut
  | connectorErr (detail : String)
  | clientErr (detail : String)
  | unexpectedErr (detail : String)
  | ok (resp : HttpResponse)

/-- The HTTP GET actually issued (src/text_extractor.py, line 93): its URL,
the timeout passed to `session.get`, and the resolved User-Agent header. -/
structure HttpRequest where
  url : String
  timeout : Int
  userAgent : String
deriving DecidableEq, Repr

/-- The oracle type for trafilatura/BeautifulSoup extraction on HTML-family
content: decoded text to (extracted text, title). -/
def HtmlOracle : Type := String → Option String × Option String

/-- The timestamp purge inside `_check_rate_limit`
(src/text_extractor.py, lines 296-299). -/
def purgeTimes (cfg : Config) (now : Int) (times : List Int) : List Int :=
  times.filter (fun t => now - t < cfg.rate_limit_window)

/-- `TextExtractor._check_rate_limit` (src/text_extractor.py,
lines 291-302): purge, then compare against the limit.  Returns the
admission decision and the purged timestamp list that the method stores
back into `self.request_times`. -/
def checkRateLimit (cfg : Config) (now : Int) (times : List Int) : Bool × List Int :=
  let purged := purgeTimes cfg now times
  (decide (purged.length < cfg.rate_limit_requests), purged)

/-- The combined admission step as `extract_text` performs it
(src/text_extractor.py, lines 69-78): check, and on admission append the
current timestamp. -/
def rateStep (cfg : Config) (now : Int) (times : List Int) : Bool × List Int :=
  let r := checkRateLimit cfg now times
  if r.1 then (true, r.2 ++ [now]) else (false, r.2)

/-- The streaming read loop (src/text_extractor.py, lines 139-151):
accumulate chunks, abort as soon as the accumulated length exceeds
`maxSize`.  Returns `none` on abort (content too large) or the accumulated
content, paired with the peak number of bytes ever held in the buffer. -/
def streamRead (maxSize : Nat) (buf : String) : List String → Option String × Nat
  | [] => (some buf, buf.length)
  | c :: rest =>
    let buf' := buf ++ c
    if buf'.length > maxSize then (none, buf'.length)
    else
      let r := streamRead maxSize buf' rest
      (r.1, Nat.max buf'.length r.2)

/-- Total size of a chunked body. -/
def totalLen (chunks : List String) : Nat := (chunks.map String.length).sum

/-- Length of the largest chunk. -/
def maxChunkLen (chunks : List String) : Nat :=
  (chunks.map String.length).foldr Nat.max 0

/-- Model of the f-string `f"{max_size / (1024*1024):.1f}"`
(src/text_extractor.py, line 147): the size in MB with one decimal digit.
Rounding is modelled as round-half-up over exact rationals; it agrees with
Python's float formatting on the byte counts exercised here. -/
def mbStr (bytes : Nat) : String :=
  let tenths := (bytes * 10 + 524288) / 1048576
  toString (tenths / 10) ++ "." ++ toString (tenths % 10)

/-- The oversized-body failure message (src/text_extractor.py, line 147). -/
def contentTooLargeMsg (maxSize : Nat) : String :=
  "Content too large (exceeds " ++ mbStr maxSize ++ "MB limit)"

/-- `TextExtractor._is_supported_content_type` (src/text_extractor.py,
lines 287-289): substring match against the configured list. -/
def isSupportedCT (cfg : Config) (contentType : String) : Bool :=
  cfg.supported_content_types.any (fun s => strContainsSub contentType s)

/-- `TextExtractor._extract_text_content` (src/text_extractor.py,
lines 219-285): the pure `text/plain` branch from the source; the
HTML-family branches (trafilatura with BeautifulSoup fallback, all
exceptions caught) are the `htmlExtract` oracle. -/
def extractTextContent (htmlExtract : HtmlOracle) (content contentType : String) :
    Option String × Option String :=
  if strContainsSub contentType "text/plain" then (some (pyStrip content), none)
  else htmlExtract content

/-- Python falsiness of an optional string (`None` or `""`). -/
def isFalsyStr : Option String → Bool
  | none => true
  | some s => s.isEmpty

/-- The User-Agent resolution `user_agent or self.config.user_agent`
(src/text_extractor.py, line 85): Python `or` falls back on `None` and on
the empty string. -/
def resolveUA (cfg : Config) (userAgent : Option String) : String :=
  match userAgent with
  | some ua => if ua.isEmpty then cfg.user_agent else ua
  | none => cfg.user_agent

/-- `TextExtractor.extract_text` (src/text_extractor.py, lines 56-217).

State threading: `times` is `self.request_times` before the call and the
second component of the result is its value after the call.  The third
component is the HTTP GET issued (`none` when the rate limiter denied the
attempt before any network call).  `now` stands for `time.time()`; `env`
is what the network did.  The session object itself carries no information
the result depends on, and its lifecycle is modelled separately by
`ensureSession`/`closeExtractor` below. -/
def extractText (cfg : Config) (htmlExtract : HtmlOracle) (now : Int)
    (times : List Int) (env : FetchOutcome) (url : String) (timeout : Int)
    (userAgent : Option String) :
    ExtractionResult × List Int × Option HttpRequest :=
  let gate := rateStep cfg now times
  if !gate.1 then
    (⟨false, none, none, none, none,
      some "Rate limit exceeded. Please try again later.", some url⟩, gate.2, none)
  else
    let req : HttpRequest := ⟨url, timeout, resolveUA cfg userAgent⟩
    match env with
    | .timedOut =>
      (⟨false, none, none, none, none,
        some ("Request timed out after " ++ toString timeout ++ " seconds"),
        some url⟩, gate.2, some req)
    | .connectorErr d =>
      (⟨false, none, none, none, none, some ("Connection error: " ++ d), some url⟩,
        gate.2, some req)
    | .clientErr d =>
      (⟨false, none, none, none, none, some ("Network error: " ++ d), some url⟩,
        gate.2, some req)
    | .unexpectedErr d =>
      (⟨false, none, none, none, none, some ("Unexpected error: " ++ d), some url⟩,
        gate.2, some req)
    | .ok resp =>
      let status := resp.status
      let ctype := strToLower (resp.contentTypeHeader.getD "")
      if status == 404 then
        (⟨false, none, none, none, some status, some "Page not found (404)", some url⟩,
          gate.2, some req)
      else if status == 403 then
        (⟨false, none, none, none, some status, some "Access forbidden (403)", some url⟩,
          gate.2, some req)
      else if status == 429 then
        (⟨false, none, none, none, some status,
          some "Too many requests (429). Please try again later.", some url⟩,
          gate.2, some req)
      else if status ≥ 400 then
        (⟨false, none, none, none, some status,
          some ("HTTP error " ++ toString status), some url⟩, gate.2, some req)
      else if !isSupportedCT cfg ctype then
        (⟨false, none, none, some ctype, some status,
          some ("Unsupported content type: " ++ ctype), some url⟩, gate.2, some req)
      else
        match (streamRead cfg.max_content_length "" resp.chunks).1 with
        | none =>
          (⟨false, none, none, some ctype, some status,
            some (contentTooLargeMsg cfg.max_content_length), some url⟩,
            gate.2, some req)
        | some content =>
          match resp.readError with
          | some d =>
            (⟨false, none, none, none, none,
              some ("Error reading response: " ++ d), some url⟩, gate.2, some req)
          | none =>
            match resp.decodeError with
            | some d =>
              (⟨false, none, none, some ctype, some status,
                some ("Failed to decode content: " ++ d), some url⟩, gate.2, some req)
            | none =>
              let extracted := extractTextContent htmlExtract content ctype
              if isFalsyStr extracted.1 then
                (⟨false, none, none, some ctype, some status,
                  some "No readable text content found", some url⟩, gate.2, some req)
              else
                (⟨true, extracted.1, extracted.2, some ctype, some status, none,
                  some url⟩, gate.2, some req)

/-- The timeout resolution in `handle_call_tool`
(src/mcp_url_search_server.py, line 99): the caller's value when supplied,
else the configured default.  No clamping occurs. -/
def callToolTimeout (cfg : Config) (arg : Option Int) : Int :=
  arg.getD cfg.default_timeout

/-! ## Session lifecycle (`src/text_extractor.py`, lines 31-54 and 304-316) -/

/-- The session-related state of a `TextExtractor`: `self.session` (the
aiohttp session, abstracted to presence) and `self._session_created`. -/
structure ExtractorState where
  session : Option Unit
  session_created : Bool
deriving DecidableEq, Repr

/-- `TextExtractor.__init__` session state (src/text_extractor.py,
lines 31-37). -/
def initExtractor : ExtractorState := ⟨none, false⟩

/-- `TextExtractor._ensure_session` (src/text_extractor.py, lines 39-54):
create the session if absent. -/
def ensureSession (s : ExtractorState) : ExtractorState :=
  if s.session.isNone then { session := some (), session_created := true } else s

/-- `TextExtractor.close` (src/text_extractor.py, lines 304-316): when a
created session exists, close it (exceptions caught) and reset both
fields; otherwise do nothing. -/
def closeExtractor (s : ExtractorState) : ExtractorState :=
  if s.session.isSome && s.session_created then ⟨none, false⟩ else s

/-- The state invariant maintained by the extractor: a session is present
exactly when `_session_created` is set. -/
def sessionInv (s : ExtractorState) : Prop := s.session.isSome = s.session_created

/-! ## Transport assumption and concrete fixtures -/

/-- Transport-layer assumption: a delivered response carries a final HTTP
status (at least 200).  Informational 1xx statuses are consumed inside the
HTTP client library and never surface as the response object the pipeline
sees; the pipeline itself checks only the upper bound. -/
def statusFinal : FetchOutcome → Prop
  | .ok resp => 200 ≤ resp.status
  | _ => True

/-- Oracle returning no text and no title (trafilatura and the fallback
both find nothing). -/
def heNone : HtmlOracle := fun _ => (none, none)

/-- The default configuration (all values from src/config.py). -/
def cfgDefault : Config := {}

/-- Default configuration with a rate limit of 2 requests per window. -/
def cfgSmallRate : Config := { rate_limit_requests := 2 }

/-- Default configuration with a 5-byte body limit. -/
def cfgTiny : Config := { max_content_length := 5 }

/-- A 200 text/plain response with a small body. -/
def respPlain : HttpResponse :=
  { status := 200, contentTypeHeader := some "text/plain", chunks := ["hi"] }

/-- A 200 text/html response whose single chunk is 10 bytes. -/
def respBig : HttpResponse :=
  { status := 200, contentTypeHeader := some "text/html", chunks := ["0123456789"] }

/-! ## Lemmas about the substring primitives -/

theorem isPrefixL_append_right {p l : List Char} (t : List Char)
    (h : isPrefixL p l = true) : isPrefixL p (l ++ t) = true := by
  induction p generalizing l with
  | nil => simp [isPrefixL]
  | cons a as ih =>
    cases l with
    | nil => simp [isPrefixL] at h
    | cons b bs =>
      simp only [isPrefixL, Bool.and_eq_true, beq_iff_eq] at h
      simp only [List.cons_append, isPrefixL, Bool.and_eq_true, beq_iff_eq]
      exact ⟨h.1, ih h.2⟩

theorem exists_of_isPrefixL {p l : List Char} (h : isPrefixL p l = true) :
    ∃ t, l = p ++ t := by
  induction p generalizing l with
  | nil => exact ⟨l, rfl⟩
  | cons a as ih =>
    cases l with
    | nil => simp [isPrefixL] at h
    | cons b bs =>
      simp only [isPrefixL, Bool.and_eq_true, beq_iff_eq] at h
      obtain ⟨ha, hrest⟩ := h
      obtain ⟨t, ht⟩ := ih hrest
      exact ⟨t, by rw [ht, ha]; rfl⟩

theorem hasSubL_of_isPrefixL {p l : List Char} (h : isPrefixL p l = true) :
    hasSubL p l = true := by
  cases l <;> simp [hasSubL, h]

theorem hasSubL_cons {p t : List Char} (c : Char) (h : hasSubL p t = true) :
    hasSubL p (c :: t) = true := by
  simp [hasSubL, h]

theorem hasSubL_append_left {p t : List Char} (pre : List Char)
    (h : hasSubL p t = true) : hasSubL p (pre ++ t) = true := by
  induction pre with
  | nil => exact h
  | cons c cs ih => exact hasSubL_cons c ih

theorem hasSubL_nil_left (l : List Char) : hasSubL [] l = true := by
  cases l <;> simp [hasSubL, isPrefixL]

theorem hasSubL_append_right {p q : List Char} (t : List Char)
    (h : hasSubL p q = true) : hasSubL p (q ++ t) = true := by
  induction q with
  | nil =>
    have : p = [] := by
      cases p with
      | nil => rfl
      | cons a as => simp [hasSubL, isPrefixL] at h
    subst this
    exact hasSubL_nil_left t
  | cons c q' ih =>
    simp only [hasSubL, Bool.or_eq_true] at h
    rcases h with h | h
    · exact hasSubL_of_isPrefixL (isPrefixL_append_right t h)
    · exact hasSubL_cons c (ih h)

theorem hasSubL_trans_isPrefixL {p q l : List Char} (hs : hasSubL p q = true)
    (hp : isPrefixL q l = true) : hasSubL p l = true := by
  obtain ⟨t, rfl⟩ := exists_of_isPrefixL hp
  exact hasSubL_append_right t hs

theorem dropWhileEnd_isPrefix (q : Char → Bool) (l : List Char) :
    ∃ t, l = dropWhileEnd q l ++ t := by
  induction l with
  | nil => exact ⟨[], rfl⟩
  | cons c rest ih =>
    obtain ⟨t, ht⟩ := ih
    by_cases h : ((dropWhileEnd q rest).isEmpty && q c) = true
    · exact ⟨c :: rest, by simp [dropWhileEnd, h]⟩
    · refine ⟨t, ?_⟩
      simp only [dropWhileEnd, h]
      simp only [Bool.false_eq_true, if_false, List.cons_append]
      rw [← ht]

theorem hasSubL_of_pyStrip {p : List Char} {s : String}
    (h : hasSubL p (pyStrip s).toList = true) : hasSubL p s.toList = true := by
  have h1 : (pyStrip s).toList = dropWhileEnd pyIsSpace (s.toList.dropWhile pyIsSpace) := rfl
  rw [h1] at h
  obtain ⟨t, ht⟩ := dropWhileEnd_isPrefix pyIsSpace (s.toList.dropWhile pyIsSpace)
  have h2 : hasSubL p (s.toList.dropWhile pyIsSpace) = true := by
    rw [ht]; exact hasSubL_append_right t h
  have h3 := List.takeWhile_append_dropWhile (p := pyIsSpace) (l := s.toList)
  rw [← h3]
  exact hasSubL_append_left _ h2

/-- If a string (as input to the validator) does not contain `"://"`, the
normalization prepends `https://` to the stripped string. -/
theorem normalizeUrl_eq_of_no_scheme {s : String}
    (h : strContainsSub s "://" = false) :
    normalizeUrl s = "https://" ++ pyStrip s := by
  have hs : hasSubL [':', '/', '/'] s.data = false := by
    simpa [strContainsSub] using h
  have h3 : strContainsSub (pyStrip s) "://" = false := by
    by_contra hc
    rw [Bool.not_eq_false] at hc
    exact absurd (hasSubL_of_pyStrip hc) (by simp [hs])
  have h1 : strStartsWith (pyStrip s) "http://" = false := by
    by_contra hc
    rw [Bool.not_eq_false] at hc
    have : hasSubL "://".toList (pyStrip s).toList = true :=
      hasSubL_trans_isPrefixL (p := "://".toList) (q := "http://".toList)
        (by decide) hc
    exact absurd (hasSubL_of_pyStrip this) (by simp [hs])
  have h2 : strStartsWith (pyStrip s) "https://" = false := by
    by_contra hc
    rw [Bool.not_eq_false] at hc
    have : hasSubL "://".toList (pyStrip s).toList = true :=
      hasSubL_trans_isPrefixL (p := "://".toList) (q := "https://".toList)
        (by decide) hc
    exact absurd (hasSubL_of_pyStrip this) (by simp [hs])
  simp [normalizeUrl, h1, h2, h3]

/-! ## Lemmas about the streaming read loop -/

theorem maxChunkLen_cons (c : String) (rest : List String) :
    maxChunkLen (c :: rest) = Nat.max c.length (maxChunkLen rest) := rfl

/-- Peak bound of the read loop: starting from a buffer within the limit,
the buffer never grows past the limit plus one chunk. -/
theorem streamRead_peak_le {maxSize : Nat} (chunks : List String) (buf : String)
    (h : buf.length ≤ maxSize) :
    (streamRead maxSize buf chunks).2 ≤ maxSize + maxChunkLen chunks := by
  induction chunks generalizing buf with
  | nil =>
    simpa [streamRead, maxChunkLen] using h
  | cons c rest ih =>
    have hlen : (buf ++ c).length = buf.length + c.length := String.length_append buf c
    by_cases hgt : (buf ++ c).length > maxSize
    · simp only [streamRead, hgt, if_pos]
      rw [maxChunkLen_cons, hlen]
      have : c.length ≤ Nat.max c.length (maxChunkLen rest) := Nat.le_max_left _ _
      omega
    · simp only [streamRead, hgt, if_neg, not_false_iff]
      have hle : (buf ++ c).length ≤ maxSize := Nat.le_of_not_lt hgt
      have h2 := ih (buf ++ c) hle
      rw [maxChunkLen_cons]
      have h3 : maxChunkLen rest ≤ Nat.max c.length (maxChunkLen rest) := Nat.le_max_right _ _
      refine Nat.max_le.mpr ⟨by omega, by omega⟩

/-- The read loop aborts whenever the total body size exceeds the limit. -/
theorem streamRead_abort {maxSize : Nat} (chunks : List String) (buf : String)
    (hb : buf.length ≤ maxSize) (h : maxSize < buf.length + totalLen chunks) :
    (streamRead maxSize buf chunks).1 = none := by
  induction chunks generalizing buf with
  | nil =>
    simp only [totalLen, List.map_nil, List.sum_nil] at h
    omega
  | cons c rest ih =>
    have hlen : (buf ++ c).length = buf.length + c.length := String.length_append buf c
    have htot : totalLen (c :: rest) = c.length + totalLen rest := by
      simp [totalLen]
    by_cases hgt : (buf ++ c).length > maxSize
    · have hgt' : maxSize < buf.length + c.length := by omega
      simp [streamRead, hgt']
    · simp only [streamRead, hgt, if_neg, not_false_iff]
      exact ih (buf ++ c) (Nat.le_of_not_lt hgt) (by omega)

/-! ## Structural facts about every branch of `extractText` -/

/-- Every branch of `extractText` echoes the URL, reports a message on
failure, succeeds only on a delivered response with non-empty text and a
non-error status, and issues the GET with the caller's timeout exactly
when the rate limiter admits the attempt. -/
theorem extractText_shape (cfg : Config) (he : HtmlOracle) (now : Int)
    (times : List Int) (env : FetchOutcome) (url : String) (t : Int)
    (ua : Option String) :
    (extractText cfg he now times env url t ua).1.url = some url ∧
    ((extractText cfg he now times env url t ua).1.success = false →
      (extractText cfg he now times env url t ua).1.error_message ≠ none) ∧
    ((extractText cfg he now times env url t ua).1.success = true →
      (∃ s, (extractText cfg he now times env url t ua).1.text_content = some s ∧
        s ≠ "") ∧
      ∃ resp, env = FetchOutcome.ok resp ∧
        (extractText cfg he now times env url t ua).1.status_code =
          some resp.status ∧ resp.status ≤ 399) ∧
    ((rateStep cfg now times).1 = true →
      (extractText cfg he now times env url t ua).2.2 =
        some ⟨url, t, resolveUA cfg ua⟩) := by
  by_cases hr : (rateStep cfg now times).1 = true
  · cases env with
    | timedOut => simp [extractText, hr]
    | connectorErr d => simp [extractText, hr]
    | clientErr d => simp [extractText, hr]
    | unexpectedErr d => simp [extractText, hr]
    | ok resp =>
      simp only [extractText, hr, Bool.not_true, Bool.false_eq_true, if_false]
      by_cases h404 : (resp.status == 404) = true
      · rw [if_pos h404]; exact ⟨rfl, by simp, by simp, fun _ => rfl⟩
      rw [if_neg h404]
      by_cases h403 : (resp.status == 403) = true
      · rw [if_pos h403]; exact ⟨rfl, by simp, by simp, fun _ => rfl⟩
      rw [if_neg h403]
      by_cases h429 : (resp.status == 429) = true
      · rw [if_pos h429]; exact ⟨rfl, by simp, by simp, fun _ => rfl⟩
      rw [if_neg h429]
      by_cases h400 : resp.status ≥ 400
      · rw [if_pos h400]; exact ⟨rfl, by simp, by simp, fun _ => rfl⟩
      rw [if_neg h400]
      by_cases hct :
          (!isSupportedCT cfg (strToLower (resp.contentTypeHeader.getD ""))) = true
      · rw [if_pos hct]; exact ⟨rfl, by simp, by simp, fun _ => rfl⟩
      rw [if_neg hct]
      rcases hsr : (streamRead cfg.max_content_length "" resp.chunks).1 with _ | content
      · exact ⟨rfl, by simp, by simp, fun _ => rfl⟩
      rcases hre : resp.readError with _ | d1
      · rcases hde : resp.decodeError with _ | d2
        · by_cases hf : isFalsyStr (extractTextContent he content
              (strToLower (resp.contentTypeHeader.getD ""))).1 = true
          · simp [hf]
          · rw [Bool.not_eq_true] at hf
            simp only [hf, Bool.false_eq_true, if_false]
            refine ⟨by trivial, by simp, fun _ => ⟨?_, resp, rfl, rfl, by omega⟩,
              fun _ => by trivial⟩
            rcases hX : (extractTextContent he content
                (strToLower (resp.contentTypeHeader.getD ""))).1 with _ | s
            · rw [hX] at hf; simp [isFalsyStr] at hf
            · refine ⟨s, by simp [hX], fun hempty => ?_⟩
              rw [hX] at hf
              subst hempty
              revert hf
              decide
        · exact ⟨rfl, by simp, by simp, fun _ => rfl⟩
      · exact ⟨rfl, by simp, by simp, fun _ => rfl⟩
  · rw [Bool.not_eq_true] at hr
    simp [extractText, hr]

/-- Every failing branch of `validate` carries an error message. -/
theorem validate_fail_has_msg (v : PyValue) :
    (validate v).is_valid = false → (validate v).error_message ≠ none := by
  unfold validate finishValidation
  repeat' split <;> (first | simp_all | simp | skip)

/-! ## Claim theorems -/

/-- C1: `validate` rejects the four private-IP example URLs, but the error
message it produces is "Access to private or reserved IP ranges is not
allowed", which does not contain the substring "private IP" that the claim
(and the repository's own test `test_blocked_private_ip_ranges`, via
`assertIn`) requires the message to mention. -/
theorem c1_private_ip_rejected_but_message_lacks_substring :
    ((validate (.str "http://10.0.0.1")).is_valid = false ∧
      (validate (.str "http://10.0.0.1")).error_message =
        some "Access to private or reserved IP ranges is not allowed") ∧
    ((validate (.str "http://192.168.1.1")).is_valid = false ∧
      (validate (.str "http://192.168.1.1")).error_message =
        some "Access to private or reserved IP ranges is not allowed") ∧
    ((validate (.str "http://169.254.1.1")).is_valid = false ∧
      (validate (.str "http://169.254.1.1")).error_message =
        some "Access to private or reserved IP ranges is not allowed") ∧
    ((validate (.str "http://172.16.0.1")).is_valid = false ∧
      (validate (.str "http://172.16.0.1")).error_message =
        some "Access to private or reserved IP ranges is not allowed") ∧
    strContainsSub "Access to private or reserved IP ranges is not allowed"
      "private IP" = false := by
  decide

/-- C2: under the transport assumption that a delivered response has a
final (≥ 200) status, every `extract_text` result satisfies the
`ExtractionResult` invariant: success implies non-empty text and a status
in [200, 399]; failure implies an error message is set. -/
theorem c2_extraction_result_invariant (cfg : Config) (he : HtmlOracle)
    (now : Int) (times : List Int) (env : FetchOutcome) (url : String)
    (t : Int) (ua : Option String) (hfin : statusFinal env) :
    ((extractText cfg he now times env url t ua).1.success = true →
      (∃ s, (extractText cfg he now times env url t ua).1.text_content = some s ∧
        s ≠ "") ∧
      ∃ c, (extractText cfg he now times env url t ua).1.status_code = some c ∧
        200 ≤ c ∧ c ≤ 399) ∧
    ((extractText cfg he now times env url t ua).1.success = false →
      (extractText cfg he now times env url t ua).1.error_message ≠ none) := by
  obtain ⟨-, hfail, hsucc, -⟩ := extractText_shape cfg he now times env url t ua
  refine ⟨fun h => ?_, hfail⟩
  obtain ⟨htext, resp, henv, hstat, hle⟩ := hsucc h
  refine ⟨htext, resp.status, hstat, ?_, hle⟩
  have h200 := hfin
  rw [henv] at h200
  exact h200

/-- Witness for C2 at a concrete call. -/
theorem c2_extraction_result_invariant_witness :
    statusFinal (.ok respPlain) ∧
    (((extractText cfgDefault heNone 0 [] (.ok respPlain) "https://example.com"
        10 none).1.success = true →
      (∃ s, (extractText cfgDefault heNone 0 [] (.ok respPlain)
          "https://example.com" 10 none).1.text_content = some s ∧ s ≠ "") ∧
      ∃ c, (extractText cfgDefault heNone 0 [] (.ok respPlain)
          "https://example.com" 10 none).1.status_code = some c ∧
        200 ≤ c ∧ c ≤ 399) ∧
    ((extractText cfgDefault heNone 0 [] (.ok respPlain) "https://example.com"
        10 none).1.success = false →
      (extractText cfgDefault heNone 0 [] (.ok respPlain) "https://example.com"
        10 none).1.error_message ≠ none)) :=
  ⟨le_refl 200,
    c2_extraction_result_invariant cfgDefault heNone 0 [] (.ok respPlain)
      "https://example.com" 10 none (le_refl 200)⟩

/-- C3: the rate limiter is a sliding-window counter: a denied step records
nothing beyond the purge, an admitted step records the current timestamp,
a full window of `rateLimitRequests` recent timestamps denies the next
attempt, and once the window has elapsed the next attempt is admitted. -/
theorem c3_sliding_window_rate_limiter (cfg : Config) (now later : Int)
    (times : List Int) :
    ((rateStep cfg now times).1 = false →
      (rateStep cfg now times).2 = purgeTimes cfg now times) ∧
    ((rateStep cfg now times).1 = true →
      (rateStep cfg now times).2 = purgeTimes cfg now times ++ [now]) ∧
    (times.length = cfg.rate_limit_requests →
      (∀ x ∈ times, now - x < cfg.rate_limit_window) →
      (rateStep cfg now times).1 = false) ∧
    (0 < cfg.rate_limit_requests →
      (∀ x ∈ times, cfg.rate_limit_window ≤ later - x) →
      (rateStep cfg later times).1 = true) := by
  refine ⟨?_, ?_, ?_, ?_⟩
  · intro h
    by_cases hd : (purgeTimes cfg now times).length < cfg.rate_limit_requests
    · simp [rateStep, checkRateLimit, hd] at h
    · simp [rateStep, checkRateLimit, hd]
  · intro h
    by_cases hd : (purgeTimes cfg now times).length < cfg.rate_limit_requests
    · simp [rateStep, checkRateLimit, hd]
    · simp [rateStep, checkRateLimit, hd] at h
  · intro hlen hwin
    have hp : purgeTimes cfg now times = times := by
      unfold purgeTimes
      refine List.filter_eq_self.mpr fun a ha => ?_
      simpa using hwin a ha
    have hnlt : ¬ (purgeTimes cfg now times).length < cfg.rate_limit_requests := by
      rw [hp, hlen]; omega
    simp [rateStep, checkRateLimit, hnlt]
  · intro hlim hwin
    have hp : purgeTimes cfg later times = [] := by
      unfold purgeTimes
      refine List.filter_eq_nil_iff.mpr fun a ha => ?_
      simpa using not_lt.mpr (hwin a ha)
    have hlt : (purgeTimes cfg later times).length < cfg.rate_limit_requests := by
      rw [hp]; simpa using hlim
    simp [rateStep, checkRateLimit, hlt]

/-- Witness for C3 at a concrete clock and a 2-request window. -/
theorem c3_sliding_window_rate_limiter_witness :
    ([(0 : Int), 0].length = cfgSmallRate.rate_limit_requests ∧
      (∀ x ∈ [(0 : Int), 0], (0 : Int) - x < cfgSmallRate.rate_limit_window) ∧
      0 < cfgSmallRate.rate_limit_requests ∧
      (∀ x ∈ [(0 : Int), 0], cfgSmallRate.rate_limit_window ≤ (60 : Int) - x)) ∧
    (rateStep cfgSmallRate 0 [0, 0]).1 = false ∧
    (rateStep cfgSmallRate 60 [0, 0]).1 = true ∧
    (rateStep cfgSmallRate 0 [0, 0]).2 = [0, 0] :=
  ⟨⟨by decide, by decide, by decide, by decide⟩,
    (c3_sliding_window_rate_limiter cfgSmallRate 0 60 [0, 0]).2.2.1
      (by decide) (by decide),
    (c3_sliding_window_rate_limiter cfgSmallRate 0 60 [0, 0]).2.2.2
      (by decide) (by decide),
    ((c3_sliding_window_rate_limiter cfgSmallRate 0 60 [0, 0]).1
      ((c3_sliding_window_rate_limiter cfgSmallRate 0 60 [0, 0]).2.2.1
        (by decide) (by decide))).trans (by decide)⟩

/-- C4 counterexample: with a 5-byte limit and a single 10-byte chunk, the
pipeline does abort with the size-limit message, but the read loop buffers
10 bytes — more than `maxContentLength` — refuting the claim that no more
than `maxContentLength` bytes are ever buffered. -/
theorem c4_buffer_exceeds_limit_counterexample :
    (extractText cfgTiny heNone 0 [] (.ok respBig) "https://example.com" 10
        none).1 =
      ⟨false, none, none, some "text/html", some 200,
        some (contentTooLargeMsg 5), some "https://example.com"⟩ ∧
    (streamRead cfgTiny.max_content_length "" respBig.chunks).2 = 10 ∧
    cfgTiny.max_content_length <
      (streamRead cfgTiny.max_content_length "" respBig.chunks).2 := by
  decide

/-- C4 (amended): when the body exceeds `maxContentLength`, the read
aborts mid-stream and the pipeline fails with the message naming the
configured limit in MB; the buffer exceeds the limit only by the final
chunk, i.e. the peak buffered size is at most `maxContentLength` plus the
largest chunk length. -/
theorem c4_amended_size_abort (cfg : Config) (he : HtmlOracle) (now : Int)
    (times : List Int) (resp : HttpResponse) (url : String) (t : Int)
    (ua : Option String)
    (hgate : (rateStep cfg now times).1 = true)
    (hstatus : resp.status < 400)
    (hct : isSupportedCT cfg (strToLower (resp.contentTypeHeader.getD "")) = true)
    (hbig : cfg.max_content_length < totalLen resp.chunks) :
    ((extractText cfg he now times (.ok resp) url t ua).1.success = false ∧
      (extractText cfg he now times (.ok resp) url t ua).1.error_message =
        some (contentTooLargeMsg cfg.max_content_length)) ∧
    (streamRead cfg.max_content_length "" resp.chunks).1 = none ∧
    (streamRead cfg.max_content_length "" resp.chunks).2 ≤
      cfg.max_content_length + maxChunkLen resp.chunks := by
  have habort : (streamRead cfg.max_content_length "" resp.chunks).1 = none :=
    streamRead_abort resp.chunks "" (by simp) (by simpa using hbig)
  have h404 : (resp.status == 404) = false := by simp; omega
  have h403 : (resp.status == 403) = false := by simp; omega
  have h429 : (resp.status == 429) = false := by simp; omega
  have h400 : ¬ resp.status ≥ 400 := by omega
  refine ⟨?_, habort, streamRead_peak_le resp.chunks "" (by simp)⟩
  simp [extractText, hgate, h404, h403, h429, h400, hct, habort]

/-- Witness for C4 (amended) at the concrete 5-byte configuration. -/
theorem c4_amended_size_abort_witness :
    ((rateStep cfgTiny 0 []).1 = true ∧ respBig.status < 400 ∧
      isSupportedCT cfgTiny (strToLower (respBig.contentTypeHeader.getD "")) =
        true ∧
      cfgTiny.max_content_length < totalLen respBig.chunks) ∧
    ((extractText cfgTiny heNone 0 [] (.ok respBig) "https://example.com" 10
        none).1.success = false ∧
      (extractText cfgTiny heNone 0 [] (.ok respBig) "https://example.com" 10
        none).1.error_message =
        some (contentTooLargeMsg cfgTiny.max_content_length)) ∧
    (streamRead cfgTiny.max_content_length "" respBig.chunks).1 = none ∧
    (streamRead cfgTiny.max_content_length "" respBig.chunks).2 ≤
      cfgTiny.max_content_length + maxChunkLen respBig.chunks :=
  ⟨⟨by decide, by decide, by decide, by decide⟩,
    (c4_amended_size_abort cfgTiny heNone 0 [] respBig "https://example.com" 10
      none (by decide) (by decide) (by decide) (by decide)).1,
    (c4_amended_size_abort cfgTiny heNone 0 [] respBig "https://example.com" 10
      none (by decide) (by decide) (by decide) (by decide)).2⟩

/-- C5 counterexample: with the default configuration (`maxTimeout` = 60),
a caller-supplied timeout of 1000 reaches the HTTP GET unchanged — the
effective request timeout is 1000, not 60, so the caller-supplied timeout
is not clamped to the `maxTimeout` ceiling. -/
theorem c5_timeout_not_clamped_counterexample :
    callToolTimeout cfgDefault (some 1000) = 1000 ∧
    cfgDefault.max_timeout = 60 ∧
    (extractText cfgDefault heNone 0 [] .timedOut "https://example.com" 1000
        none).2.2 =
      some ⟨"https://example.com", 1000, "MCP-URL-Search-Server/1.0.0"⟩ ∧
    ¬ (1000 : Int) = 60 := by
  decide

/-- C5 (amended): the caller-supplied timeout is passed to the HTTP GET
unchanged (whenever the rate limiter admits the attempt), the tool handler
forwards a supplied timeout verbatim, and only `defaultTimeout` is clamped
into [1, maxTimeout] at `Config` construction. -/
theorem c5_amended_timeout_passthrough (cfg : Config) (he : HtmlOracle)
    (now : Int) (times : List Int) (env : FetchOutcome) (url : String)
    (t : Int) (ua : Option String) (arg : Int)
    (hgate : (rateStep cfg now times).1 = true) :
    (extractText cfg he now times env url t ua).2.2 =
      some ⟨url, t, resolveUA cfg ua⟩ ∧
    callToolTimeout cfg (some arg) = arg ∧
    (1 ≤ cfg.max_timeout →
      1 ≤ (postInitClamp cfg).default_timeout ∧
      (postInitClamp cfg).default_timeout ≤ cfg.max_timeout) := by
  refine ⟨(extractText_shape cfg he now times env url t ua).2.2.2 hgate, rfl,
    fun h => ?_⟩
  simp only [postInitClamp]
  constructor <;> split_ifs <;> simp_all

/-- Witness for C5 (amended) at a concrete call. -/
theorem c5_amended_timeout_passthrough_witness :
    (rateStep cfgDefault 0 []).1 = true ∧
    ((extractText cfgDefault heNone 0 [] .timedOut "https://example.com" 1000
        none).2.2 = some ⟨"https://example.com", 1000, resolveUA cfgDefault none⟩ ∧
      callToolTimeout cfgDefault (some 1000) = 1000 ∧
      (1 ≤ cfgDefault.max_timeout →
        1 ≤ (postInitClamp cfgDefault).default_timeout ∧
        (postInitClamp cfgDefault).default_timeout ≤ cfgDefault.max_timeout)) :=
  ⟨by decide,
    c5_amended_timeout_passthrough cfgDefault heNone 0 [] .timedOut
      "https://example.com" 1000 none 1000 (by decide)⟩

/-- C6 counterexample: `validate(None)` — a non-string input — produces the
message "URL cannot be empty", not "URL must be a string", because the
source checks falsiness (`if not url:`) before `isinstance(url, str)`. -/
theorem c6_none_input_counterexample :
    PyValue.pynone.isStr = false ∧
    (validate PyValue.pynone).is_valid = false ∧
    (validate PyValue.pynone).error_message = some "URL cannot be empty" ∧
    ¬ (validate PyValue.pynone).error_message = some "URL must be a string" := by
  decide

/-- C6 (amended): every falsy input (the empty string, `None`, `0`,
`False`) is rejected with exactly "URL cannot be empty", and every truthy
non-string input is rejected with exactly "URL must be a string". -/
theorem c6_amended_input_checks (v : PyValue) :
    (truthy v = false →
      (validate v).is_valid = false ∧
      (validate v).error_message = some "URL cannot be empty") ∧
    (truthy v = true → v.isStr = false →
      (validate v).is_valid = false ∧
      (validate v).error_message = some "URL must be a string") := by
  constructor
  · intro h
    simp [validate, h]
  · intro ht hstr
    cases v with
    | str s => simp [PyValue.isStr] at hstr
    | int n => simp [validate, ht]
    | bool b => simp [validate, ht]
    | pynone => simp [truthy] at ht

/-- Witness for C6 (amended) at `None` and at the integer `123`. -/
theorem c6_amended_input_checks_witness :
    (truthy PyValue.pynone = false ∧
      (validate PyValue.pynone).is_valid = false ∧
      (validate PyValue.pynone).error_message = some "URL cannot be empty") ∧
    (truthy (PyValue.int 123) = true ∧ (PyValue.int 123).isStr = false ∧
      (validate (PyValue.int 123)).is_valid = false ∧
      (validate (PyValue.int 123)).error_message = some "URL must be a string") :=
  ⟨⟨rfl, (c6_amended_input_checks PyValue.pynone).1 rfl⟩,
    ⟨rfl, rfl, (c6_amended_input_checks (PyValue.int 123)).2 rfl rfl⟩⟩

/-- C7: every string without the substring `"://"` is normalized by
prepending `https://` (to the whitespace-stripped string, per the
normalization's initial trim), and `validate("example.com")` is valid with
normalized URL `https://example.com`. -/
theorem c7_normalization_prepends_https :
    (∀ s : String, strContainsSub s "://" = false →
      normalizeUrl s = "https://" ++ pyStrip s) ∧
    (validate (.str "example.com")).is_valid = true ∧
    (validate (.str "example.com")).normalized_url = some "https://example.com" :=
  ⟨fun _ h => normalizeUrl_eq_of_no_scheme h, by decide, by decide⟩

/-- Witness for C7 at the concrete input `"example.com"`. -/
theorem c7_normalization_prepends_https_witness :
    strContainsSub "example.com" "://" = false ∧
    normalizeUrl "example.com" = "https://" ++ pyStrip "example.com" :=
  ⟨by decide, c7_normalization_prepends_https.1 "example.com" (by decide)⟩

/-- C8: both operations are total functions into their discriminated
result types — every failing `validate` carries a message, every failing
`extract_text` carries a message, and the catch-all branch reports
"Unexpected error: <detail>". -/
theorem c8_failures_are_reported (cfg : Config) (he : HtmlOracle) (now : Int)
    (times : List Int) (env : FetchOutcome) (url : String) (t : Int)
    (ua : Option String) (v : PyValue) (d : String)
    (hgate : (rateStep cfg now times).1 = true) :
    ((validate v).is_valid = false → (validate v).error_message ≠ none) ∧
    ((extractText cfg he now times env url t ua).1.success = false →
      (extractText cfg he now times env url t ua).1.error_message ≠ none) ∧
    (extractText cfg he now times (.unexpectedErr d) url t ua).1.error_message =
      some ("Unexpected error: " ++ d) := by
  refine ⟨validate_fail_has_msg v,
    (extractText_shape cfg he now times env url t ua).2.1, ?_⟩
  simp [extractText, hgate]

/-- Witness for C8 at a concrete call. -/
theorem c8_failures_are_reported_witness :
    (rateStep cfgDefault 0 []).1 = true ∧
    (((validate (.str "http://localhost")).is_valid = false →
      (validate (.str "http://localhost")).error_message ≠ none) ∧
    ((extractText cfgDefault heNone 0 [] (.ok respPlain) "https://example.com"
        10 none).1.success = false →
      (extractText cfgDefault heNone 0 [] (.ok respPlain) "https://example.com"
        10 none).1.error_message ≠ none) ∧
    (extractText cfgDefault heNone 0 [] (.unexpectedErr "boom")
        "https://example.com" 10 none).1.error_message =
      some ("Unexpected error: " ++ "boom")) :=
  ⟨by decide,
    c8_failures_are_reported cfgDefault heNone 0 [] (.ok respPlain)
      "https://example.com" 10 none (.str "http://localhost") "boom" (by decide)⟩

/-- C9: shutdown is idempotent and safe: closing the never-initialized
extractor is a no-op, closing twice equals closing once, and (under the
session invariant the extractor maintains) a close always leaves the
session state uninitialized; the invariant holds initially and is
preserved by session creation and by close. -/
theorem c9_idempotent_shutdown :
    closeExtractor initExtractor = initExtractor ∧
    (∀ s, closeExtractor (closeExtractor s) = closeExtractor s) ∧
    (∀ s, sessionInv s → (closeExtractor s).session = none ∧
      (closeExtractor s).session_created = false) ∧
    sessionInv initExtractor ∧
    (∀ s, sessionInv s → sessionInv (ensureSession s) ∧
      sessionInv (closeExtractor s)) := by
  refine ⟨rfl, ?_, ?_, rfl, ?_⟩
  · intro s
    rcases s with ⟨_ | ⟨⟩, _ | _⟩ <;> simp [closeExtractor]
  · intro s hinv
    rcases s with ⟨_ | ⟨⟩, _ | _⟩ <;> simp_all [closeExtractor, sessionInv]
  · intro s hinv
    rcases s with ⟨_ | ⟨⟩, _ | _⟩ <;>
      simp_all [closeExtractor, ensureSession, sessionInv]

/-- Witness for C9 at the created-session state. -/
theorem c9_idempotent_shutdown_witness :
    sessionInv ⟨some (), true⟩ ∧
    (closeExtractor (⟨some (), true⟩ : ExtractorState)).session = none ∧
    (closeExtractor (⟨some (), true⟩ : ExtractorState)).session_created = false ∧
    closeExtractor (closeExtractor ⟨some (), true⟩) =
      closeExtractor ⟨some (), true⟩ :=
  ⟨rfl, (c9_idempotent_shutdown.2.2.1 ⟨some (), true⟩ rfl).1,
    (c9_idempotent_shutdown.2.2.1 ⟨some (), true⟩ rfl).2,
    c9_idempotent_shutdown.2.1 ⟨some (), true⟩⟩

/-- C10: every branch of `extract_text` — rate-limit denial, every
HTTP-status failure, unsupported content type, oversized body, read and
decode failures, no-text failure, success, and every caught exception —
returns a result whose `url` field equals the `url` argument. -/
theorem c10_url_field_echoed (cfg : Config) (he : HtmlOracle) (now : Int)
    (times : List Int) (env : FetchOutcome) (url : String) (t : Int)
    (ua : Option String) :
    (extractText cfg he now times env url t ua).1.url = some url :=
  (extractText_shape cfg he now times env url t ua).1

end Websurfer
